import Mathlib

/-!
Shallow embedding of the quantitative growth/migration modeling core of the
whatsapp-tools repository, together with proofs of the specification claims.

JavaScript numbers are modelled as exact rationals; the only numeric
primitives the core uses are arithmetic, comparison, Math.round (round half
toward positive infinity) and Math.min, all of which are exact on the
values involved.

Sources embedded here:
  - src/lib/utils/growth-model.ts        (growth model)
  - lib/data/niche-data.ts               (static niche table)
  - lib/utils/migration-model.ts         (migration model)
  - app/tools/whatsapp-vs-telegram/ComparisonTool.tsx (comparison filter)
-/

/-- Math.round: JavaScript rounds half toward positive infinity. -/
def jsRound (q : ℚ) : ℤ := ⌊q + 1 / 2⌋

-- ============================================================
-- lib/data/niche-data.ts
-- ============================================================

/-- NicheData record from lib/data/niche-data.ts. -/
structure NicheData where
  id : String
  label : String
  avgEngagement : ℚ
  avgSubPrice : ℚ
  convRate : ℚ
  capacity : ℚ
  deriving DecidableEq, Repr, Inhabited

/-- Static NICHE_DATA table from lib/data/niche-data.ts. -/
def NICHE_DATA : List NicheData :=
  [ ⟨"general", "General", 8, 2, 3, 300000⟩,
    ⟨"tech", "Tech", 6, 3, 4, 300000⟩,
    ⟨"education", "Education", 10, 4, 5, 500000⟩,
    ⟨"entertainment", "Entertainment", 12, 1.5, 2, 1000000⟩,
    ⟨"news", "News", 15, 2, 3, 2000000⟩,
    ⟨"sports", "Sports", 14, 2, 3, 1500000⟩,
    ⟨"business", "Business / Finance", 7, 5, 4, 200000⟩,
    ⟨"health", "Health", 9, 3, 3, 300000⟩,
    ⟨"food", "Food", 11, 2, 2, 400000⟩,
    ⟨"fashion", "Fashion", 8, 2, 2, 250000⟩ ]

/-- Lookup of getNicheById from lib/data/niche-data.ts (falls back to the
first niche). -/
def getNicheById (i : String) : NicheData :=
  (NICHE_DATA.find? (fun n => n.id == i)).getD (NICHE_DATA.getD 0 default)

-- ============================================================
-- src/lib/utils/growth-model.ts : types and constants
-- ============================================================

/-- GrowthInputs record from growth-model.ts. -/
structure GrowthInputs where
  followers : ℚ
  postsPerWeek : ℚ
  engagementRate : ℚ
  niche : NicheData
  deriving DecidableEq, Repr

/-- MonthProjection record from growth-model.ts. -/
structure MonthProjection where
  month : ℕ
  conservative : ℚ
  expected : ℚ
  optimistic : ℚ
  deriving DecidableEq, Repr, Inhabited

/-- Summary part of GrowthProjections (values at month 12). -/
structure GrowthSummary where
  conservative : ℚ
  expected : ℚ
  optimistic : ℚ
  deriving DecidableEq, Repr

/-- GrowthProjections record from growth-model.ts. -/
structure GrowthProjections where
  monthly : List MonthProjection
  summary : GrowthSummary
  deriving DecidableEq, Repr

def BASE_GROWTH_RATE : ℚ := 0.05
def MAX_ENGAGEMENT_MULT : ℚ := 2.5
def MAX_FREQUENCY_MULT : ℚ := 1.5

/-- SCENARIO_MULTIPLIERS.conservative in growth-model.ts. -/
def scenarioConservative : ℚ := 0.6
/-- SCENARIO_MULTIPLIERS.expected in growth-model.ts. -/
def scenarioExpected : ℚ := 1.0
/-- SCENARIO_MULTIPLIERS.optimistic in growth-model.ts. -/
def scenarioOptimistic : ℚ := 1.5

-- ============================================================
-- calculateEffectiveRate
-- ============================================================

/-- calculateEffectiveRate from growth-model.ts: dampened monthly growth
rate. -/
def calculateEffectiveRate (followers engagementRate postsPerWeek : ℚ)
    (niche : NicheData) : ℚ :=
  let engagementMult := min (engagementRate / niche.avgEngagement) MAX_ENGAGEMENT_MULT
  let frequencyMult := min (0.5 + postsPerWeek / 10) MAX_FREQUENCY_MULT
  let monthlyGrowth := BASE_GROWTH_RATE * engagementMult * frequencyMult
  let dampeningFactor := niche.capacity / (niche.capacity + followers)
  monthlyGrowth * dampeningFactor

-- ============================================================
-- calculateProjections
-- ============================================================

/-- One scenario update inside the month loop of calculateProjections:
newCount = Math.round(count * (1 + rate * scenarioMultiplier)), where the
rate is recomputed from the scenario's own current count. -/
def scenarioStep (engagementRate postsPerWeek : ℚ) (niche : NicheData)
    (mult x : ℚ) : ℚ :=
  ((jsRound (x * (1 + calculateEffectiveRate x engagementRate postsPerWeek niche * mult)) : ℤ) : ℚ)

/-- The month-1-to-12 loop of calculateProjections, with the remaining month
count as fuel. -/
def projLoop (engagementRate postsPerWeek : ℚ) (niche : NicheData) :
    ℕ → ℕ → ℚ → ℚ → ℚ → List MonthProjection
  | 0, _, _, _, _ => []
  | n + 1, month, c, e, o =>
    ⟨month, scenarioStep engagementRate postsPerWeek niche scenarioConservative c,
      scenarioStep engagementRate postsPerWeek niche scenarioExpected e,
      scenarioStep engagementRate postsPerWeek niche scenarioOptimistic o⟩ ::
      projLoop engagementRate postsPerWeek niche n (month + 1)
        (scenarioStep engagementRate postsPerWeek niche scenarioConservative c)
        (scenarioStep engagementRate postsPerWeek niche scenarioExpected e)
        (scenarioStep engagementRate postsPerWeek niche scenarioOptimistic o)

/-- calculateProjections from growth-model.ts: 12-month projection with three
scenarios, seeding at 50 when followers = 0. -/
def calculateProjections (inputs : GrowthInputs) : GrowthProjections :=
  let seedFollowers := if inputs.followers = 0 then (50 : ℚ) else inputs.followers
  let monthly := projLoop inputs.engagementRate inputs.postsPerWeek inputs.niche
    12 1 seedFollowers seedFollowers seedFollowers
  { monthly := monthly
    summary :=
      { conservative := (monthly.getD 11 default).conservative
        expected := (monthly.getD 11 default).expected
        optimistic := (monthly.getD 11 default).optimistic } }

-- ============================================================
-- Formatting helpers (growth-model.ts / migration-model.ts)
-- ============================================================

/-- Truncation toward zero, as used by the JavaScript remainder operator. -/
def jsTrunc (q : ℚ) : ℤ := if q < 0 then -⌊-q⌋ else ⌊q⌋

/-- JavaScript remainder operator on numbers: a % b = a - b * trunc(a / b). -/
def jsMod (a b : ℚ) : ℚ := a - b * (jsTrunc (a / b) : ℚ)

/-- Number.prototype.toFixed for a non-negative rational: round to f
fraction digits (ties toward positive infinity) and print with exactly f
fraction digits. -/
def ratToFixedNN (x : ℚ) (f : ℕ) : String :=
  let n := (jsRound (x * ((10 : ℚ) ^ f))).toNat
  if f = 0 then toString n
  else
    let ip := n / 10 ^ f
    let fp := n % 10 ^ f
    let fs := toString fp
    toString ip ++ "." ++ String.mk (List.replicate (f - fs.length) '0') ++ fs

/-- Number.prototype.toFixed: negative numbers format the absolute value
behind a minus sign. -/
def ratToFixed (x : ℚ) (f : ℕ) : String :=
  if x < 0 then "-" ++ ratToFixedNN (-x) f else ratToFixedNN x f

/-- Splits a digit list (least significant first) into groups of three for
thousands separators. -/
def chunk3 : List Char → List (List Char)
  | [] => []
  | a :: b :: c :: rest => [a, b, c] :: chunk3 rest
  | l => [l]

/-- Digit grouping of a natural number with commas, as in
Number.prototype.toLocaleString with the en-US locale. -/
def commaGroupNat (n : ℕ) : String :=
  String.intercalate ","
    (((chunk3 (toString n).toList.reverse).map (fun g => String.mk g.reverse)).reverse)

/-- Number.prototype.toLocaleString (en-US default): thousands grouping on
the integer part, at most three rounded fraction digits with trailing
zeros removed. -/
def localeString (q : ℚ) : String :=
  let sign := if q < 0 then "-" else ""
  let r := (jsRound (|q| * 1000)).toNat
  let ip := r / 1000
  let fp := r % 1000
  if fp = 0 then sign ++ commaGroupNat ip
  else
    let fs := toString fp
    let padded := String.mk (List.replicate (3 - fs.length) '0') ++ fs
    let trimmed := String.mk (padded.toList.reverse.dropWhile (fun ch => ch = '0')).reverse
    sign ++ commaGroupNat ip ++ "." ++ trimmed

/-- formatFollowerCount from growth-model.ts. -/
def formatFollowerCount (n : ℚ) : String :=
  if 1000000 ≤ n then
    ratToFixed (n / 1000000) (if jsMod n 1000000 = 0 then 0 else 1) ++ "M"
  else if 1000 ≤ n then
    ratToFixed (n / 1000) (if jsMod n 1000 = 0 then 0 else 1) ++ "K"
  else localeString n

/-- formatCurrency from growth-model.ts. -/
def formatCurrency (n : ℚ) : String :=
  if 1000 ≤ n then "$" ++ ratToFixed (n / 1000) 1 ++ "K" else "$" ++ ratToFixed n 0

/-- formatCommaNumber from growth-model.ts and migration-model.ts. -/
def formatCommaNumber (n : ℚ) : String := localeString n

-- ============================================================
-- calculateMilestones
-- ============================================================

/-- Milestone record from growth-model.ts. -/
structure Milestone where
  target : ℚ
  label : String
  monthConservative : Option ℕ
  monthExpected : Option ℕ
  monthOptimistic : Option ℕ
  revenueEstimate : ℚ
  deriving DecidableEq, Repr

def MILESTONE_TARGETS : List ℚ := [10000, 50000, 100000, 500000, 1000000]

/-- Local currentFollowers value of calculateMilestones: the seeded current
follower count. -/
def currentFollowersOf (inputs : GrowthInputs) : ℚ :=
  if inputs.followers = 0 then 50 else inputs.followers

/-- Body of the map in calculateMilestones: the Milestone built for one
target. -/
def milestoneFor (inputs : GrowthInputs) (projections : GrowthProjections)
    (target : ℚ) : Milestone :=
  { target := target
    label := formatFollowerCount target
    monthConservative :=
      (projections.monthly.find? (fun m => decide (target ≤ m.conservative))).map
        (fun m => m.month)
    monthExpected :=
      (projections.monthly.find? (fun m => decide (target ≤ m.expected))).map
        (fun m => m.month)
    monthOptimistic :=
      (projections.monthly.find? (fun m => decide (target ≤ m.optimistic))).map
        (fun m => m.month)
    revenueEstimate :=
      target * (inputs.niche.convRate / 100) * inputs.niche.avgSubPrice * 0.9 }

/-- calculateMilestones from growth-model.ts: only targets above the
(seeded) current follower count are kept. -/
def calculateMilestones (inputs : GrowthInputs)
    (projections : GrowthProjections) : List Milestone :=
  (MILESTONE_TARGETS.filter (fun target => decide (currentFollowersOf inputs < target))).map
    (milestoneFor inputs projections)

-- ============================================================
-- calculateMonetization and calculateBenchmark
-- ============================================================

/-- calculateMonetization from growth-model.ts. -/
def calculateMonetization (followers : ℚ) (niche : NicheData) : ℚ :=
  followers * (niche.convRate / 100) * niche.avgSubPrice * 0.9

def AVG_POSTS_PER_WEEK : ℚ := 5

/-- BenchmarkLabel union type from growth-model.ts. -/
inductive BenchmarkLabel
  | top5
  | top15
  | aboveAverage
  | average
  | belowAverage
  deriving DecidableEq, Repr

/-- BenchmarkResult record from growth-model.ts. -/
structure BenchmarkResult where
  percentile : ℚ
  label : BenchmarkLabel
  engagementVsNiche : ℚ
  frequencyVsNiche : ℚ
  deriving DecidableEq, Repr

/-- The combinedScore computed inside calculateBenchmark: weighted 60%
engagement ratio, 40% frequency ratio. -/
def combinedScoreOf (inputs : GrowthInputs) : ℚ :=
  inputs.engagementRate / inputs.niche.avgEngagement * 0.6 +
    inputs.postsPerWeek / AVG_POSTS_PER_WEEK * 0.4

/-- Percentile ladder of calculateBenchmark (thresholds on the combined
score). -/
def percentileFor (combinedScore : ℚ) : ℚ :=
  if 2.0 ≤ combinedScore then 95
  else if 1.5 ≤ combinedScore then 85
  else if 1.1 ≤ combinedScore then 70
  else if 0.8 ≤ combinedScore then 50
  else if 0.5 ≤ combinedScore then 30
  else 15

/-- Label ladder of calculateBenchmark (thresholds on the percentile). -/
def labelFor (percentile : ℚ) : BenchmarkLabel :=
  if 90 ≤ percentile then .top5
  else if 80 ≤ percentile then .top15
  else if 60 ≤ percentile then .aboveAverage
  else if 40 ≤ percentile then .average
  else .belowAverage

/-- calculateBenchmark from growth-model.ts: percentile ladder on the
combined score, then a separate label ladder on the percentile. -/
def calculateBenchmark (inputs : GrowthInputs) : BenchmarkResult :=
  let engagementVsNiche := inputs.engagementRate / inputs.niche.avgEngagement
  let frequencyVsNiche := inputs.postsPerWeek / AVG_POSTS_PER_WEEK
  let combinedScore := engagementVsNiche * 0.6 + frequencyVsNiche * 0.4
  let percentile : ℚ := percentileFor combinedScore
  let label : BenchmarkLabel := labelFor percentile
  ⟨percentile, label, engagementVsNiche, frequencyVsNiche⟩

-- ============================================================
-- generateTips
-- ============================================================

/-- Tip priority union type from growth-model.ts. -/
inductive TipPriority
  | highImpact
  | medium
  | low
  deriving DecidableEq, Repr

/-- Tip record from growth-model.ts. -/
structure Tip where
  text : String
  priority : TipPriority
  deriving DecidableEq, Repr

/-- Template-literal rendering of a number: integers print without a
fraction part (all interpolated reference values are integers). -/
def numText (q : ℚ) : String := if q.den = 1 then toString q.num else toString q

/-- The unconditional final tip pushed by generateTips. -/
def genericTip : Tip :=
  ⟨"WhatsApp Channels content auto-deletes after 30 days. Archive important posts using Make.com to Google Sheets or Notion.",
    TipPriority.low⟩

/-- First if/else-if of generateTips: the engagement-below-average tips
(at most one fires). -/
def engagementTips (inputs : GrowthInputs) : List Tip :=
  if inputs.engagementRate < inputs.niche.avgEngagement * 0.5 then
    [⟨"Your engagement rate is well below the niche average. Focus on interactive content — polls, questions, and timely updates get more reactions.",
      TipPriority.highImpact⟩]
  else if inputs.engagementRate < inputs.niche.avgEngagement then
    [⟨"Your engagement is slightly below the " ++ inputs.niche.label ++
        " niche average of " ++ numText inputs.niche.avgEngagement ++
        "%. Try posting at peak hours and using reaction-driving content formats.",
      TipPriority.medium⟩]
  else []

/-- The postsPerWeek < 3 tip of generateTips. -/
def lowFrequencyTips (inputs : GrowthInputs) : List Tip :=
  if inputs.postsPerWeek < 3 then
    [⟨"Posting fewer than 3 times per week limits your visibility. Aim for at least 3-5 posts per week to maintain audience attention.",
      TipPriority.highImpact⟩]
  else []

/-- The postsPerWeek > 10 tip of generateTips. -/
def highFrequencyTips (inputs : GrowthInputs) : List Tip :=
  if 10 < inputs.postsPerWeek then
    [⟨"High-frequency posting works best with automation. Tools like Make.com + WhatsScale can schedule and distribute content automatically.",
      TipPriority.medium⟩]
  else []

/-- The followers < 100 tip of generateTips. -/
def smallChannelTips (inputs : GrowthInputs) : List Tip :=
  if inputs.followers < 100 then
    [⟨"Channels under 100 followers grow fastest through direct promotion. Share your channel link on every platform — website, email signature, social bios.",
      TipPriority.highImpact⟩]
  else []

/-- The engagementRate > 1.5 * niche average tip of generateTips. -/
def highEngagementTips (inputs : GrowthInputs) : List Tip :=
  if inputs.niche.avgEngagement * 1.5 < inputs.engagementRate then
    [⟨"Your engagement is significantly above average — your audience is highly active. Consider monetization through paid subscriptions when Meta enables it.",
      TipPriority.medium⟩]
  else []

/-- generateTips from growth-model.ts: the conditional tips in push order,
the generic tip always appended, then slice(0, 4). -/
def generateTips (inputs : GrowthInputs) : List Tip :=
  (engagementTips inputs ++ lowFrequencyTips inputs ++ highFrequencyTips inputs ++
      smallChannelTips inputs ++ highEngagementTips inputs ++ [genericTip]).take 4

-- ============================================================
-- lib/utils/migration-model.ts : types and constants
-- ============================================================

/-- PostFrequency union type from migration-model.ts
('daily' | '2-3x' | 'weekly' | 'monthly'). -/
inductive PostFrequency
  | daily
  | twoThreeX
  | weekly
  | monthly
  deriving DecidableEq, Repr

/-- Mode union type from migration-model.ts. -/
inductive Mode
  | full
  | startFresh
  | migrateManually
  deriving DecidableEq, Repr

/-- StrategyType union type from migration-model.ts. -/
inductive StrategyType
  | gradual
  | parallel
  | fullSwitch
  deriving DecidableEq, Repr

/-- MigrationInputs record from migration-model.ts. -/
structure MigrationInputs where
  tgSubscribers : ℚ
  overlapPercent : ℚ
  postFrequency : PostFrequency
  deriving DecidableEq, Repr

/-- TimelineWeek record from migration-model.ts: cumulative WhatsApp
followers per scenario. -/
structure TimelineWeek where
  week : ℕ
  conservative : ℚ
  expected : ℚ
  optimistic : ℚ
  deriving DecidableEq, Repr, Inhabited

/-- Milestone part of MigrationTimeline. -/
structure MigrationMilestones where
  announcementBump : ℕ
  fiftyPercent : Option ℕ
  ninetyPercent : Option ℕ
  deriving DecidableEq, Repr

/-- MigrationTimeline record from migration-model.ts. -/
structure MigrationTimeline where
  weeks : List TimelineWeek
  totalWeeks : ℕ
  milestonesExpected : MigrationMilestones
  deriving DecidableEq, Repr

/-- FREQUENCY_MULTIPLIERS lookup table from migration-model.ts. -/
def FREQUENCY_MULTIPLIERS : PostFrequency → ℚ
  | .daily => 1.3
  | .twoThreeX => 1.0
  | .weekly => 0.7
  | .monthly => 0.4

/-- Migration SCENARIO_MULTIPLIERS.conservative. -/
def migConservative : ℚ := 0.7
/-- Migration SCENARIO_MULTIPLIERS.expected. -/
def migExpected : ℚ := 1.0
/-- Migration SCENARIO_MULTIPLIERS.optimistic. -/
def migOptimistic : ℚ := 1.4

/-- BASE_CONVERSION_RATES table from migration-model.ts (fraction of total
reachable converted per week). -/
def BASE_CONVERSION_RATES : List ℚ :=
  [0.20, 0.12, 0.10, 0.08, 0.06, 0.05, 0.04, 0.03, 0.02]

-- ============================================================
-- getMode and calculateReachable
-- ============================================================

/-- getMode from migration-model.ts. -/
def getMode (tgSubscribers : ℚ) : Mode :=
  if tgSubscribers = 0 then .startFresh
  else if tgSubscribers < 50 then .migrateManually
  else .full

/-- calculateReachable from migration-model.ts:
round(tgSubscribers * overlapPercent / 100). -/
def calculateReachable (tgSubscribers overlapPercent : ℚ) : ℚ :=
  ((jsRound (tgSubscribers * (overlapPercent / 100)) : ℤ) : ℚ)

-- ============================================================
-- calculateTimeline
-- ============================================================

/-- Base rate chosen for a given week inside the calculateTimeline loop:
the table value for weeks 1-9, the last table value after. -/
def baseRateFor (w : ℕ) : ℚ :=
  if w ≤ BASE_CONVERSION_RATES.length then BASE_CONVERSION_RATES.getD (w - 1) 0
  else BASE_CONVERSION_RATES.getD (BASE_CONVERSION_RATES.length - 1) 0

/-- One scenario update inside the calculateTimeline loop:
cumulative = min(cumulative + round(reachable * baseRate * freqMult * scenarioMult), reachable). -/
def timelineStep (reachable freqMult baseRate scenarioMult cum : ℚ) : ℚ :=
  min (cum + ((jsRound (reachable * (baseRate * freqMult * scenarioMult)) : ℤ) : ℚ)) reachable

/-- The week loop of calculateTimeline, with the remaining weeks as fuel.
After pushing a week the loop stops early when the conservative cumulative
reaches 95% of reachable. -/
def timelineLoop (reachable freqMult : ℚ) :
    ℕ → ℕ → ℚ → ℚ → ℚ → List TimelineWeek
  | 0, _, _, _, _ => []
  | n + 1, w, c, e, o =>
    ⟨w, timelineStep reachable freqMult (baseRateFor w) migConservative c,
      timelineStep reachable freqMult (baseRateFor w) migExpected e,
      timelineStep reachable freqMult (baseRateFor w) migOptimistic o⟩ ::
      (if reachable * 0.95 ≤ timelineStep reachable freqMult (baseRateFor w) migConservative c then []
       else timelineLoop reachable freqMult n (w + 1)
        (timelineStep reachable freqMult (baseRateFor w) migConservative c)
        (timelineStep reachable freqMult (baseRateFor w) migExpected e)
        (timelineStep reachable freqMult (baseRateFor w) migOptimistic o))

/-- calculateTimeline from migration-model.ts: up to 24 weeks of cumulative
conversion, plus 50%/90% milestone weeks for the expected scenario. -/
def calculateTimeline (inputs : MigrationInputs) : MigrationTimeline :=
  let reachable := calculateReachable inputs.tgSubscribers inputs.overlapPercent
  let freqMult := FREQUENCY_MULTIPLIERS inputs.postFrequency
  let weeks := timelineLoop reachable freqMult 24 1 0 0 0
  let fiftyTarget := reachable * 0.5
  let ninetyTarget := reachable * 0.9
  { weeks := weeks
    totalWeeks := weeks.length
    milestonesExpected :=
      { announcementBump := 1
        fiftyPercent :=
          (weeks.find? (fun w => decide (fiftyTarget ≤ w.expected))).map (fun w => w.week)
        ninetyPercent :=
          (weeks.find? (fun w => decide (ninetyTarget ≤ w.expected))).map (fun w => w.week) } }

-- ============================================================
-- getStrategy
-- ============================================================

/-- StrategyCard record from migration-model.ts. -/
structure StrategyCard where
  type : StrategyType
  name : String
  description : String
  pros : List String
  cons : List String
  timelineWeeks : ℕ
  deriving DecidableEq, Repr

/-- StrategyResult record from migration-model.ts. -/
structure StrategyResult where
  recommended : StrategyType
  cards : List StrategyCard
  isLargeChannel : Bool
  showFullSwitchAsViable : Bool
  deriving DecidableEq, Repr

/-- getStrategy from migration-model.ts: recommendation from the overlap
bands, three fixed strategy cards with computed timeline weeks. -/
def getStrategy (inputs : MigrationInputs) : StrategyResult :=
  let timeline := calculateTimeline inputs
  let ninetyWeek := timeline.milestonesExpected.ninetyPercent.getD timeline.totalWeeks
  let isLargeChannel : Bool := decide (100000 ≤ inputs.tgSubscribers)
  let showFullSwitchAsViable : Bool :=
    (inputs.postFrequency == PostFrequency.daily) && decide (80 ≤ inputs.overlapPercent)
  let recommended : StrategyType :=
    if 70 ≤ inputs.overlapPercent then .gradual
    else if 30 ≤ inputs.overlapPercent then .parallel
    else .parallel
  let cards : List StrategyCard :=
    [ { type := .gradual
        name := "Gradual Migration"
        description := "Cross-post to both platforms. Send weekly nudges to your Telegram audience inviting them to your WhatsApp Channel. Keep Telegram active throughout."
        pros :=
          [ "Preserves audience trust — no sudden disruption",
            "Low risk — you never lose access to either platform",
            "Audience self-selects their preferred platform" ]
        cons :=
          [ "Slower — takes " ++ toString ninetyWeek ++ " weeks to reach 90% migration",
            "Doubles your content effort in the short term",
            "Requires consistent cross-posting discipline" ]
        timelineWeeks := ninetyWeek },
      { type := .parallel
        name := "Parallel (Run Both)"
        description := "Run both platforms equally with no active migration push. Let your audience naturally discover your WhatsApp Channel over time."
        pros :=
          [ "Zero audience loss — everyone stays where they are",
            "No urgency pressure on your followers",
            "Works best when audiences don't fully overlap" ]
        cons :=
          [ "Permanent double effort with no clear end date",
            "No clear transition — you run both indefinitely",
            "Slower WhatsApp growth without active nudges" ]
        timelineWeeks := (jsRound ((ninetyWeek : ℚ) * 1.8)).toNat },
      { type := .fullSwitch
        name := "Full Switch"
        description := "Announce the move. Cross-post for 2-4 weeks. Then go WhatsApp-only and archive your Telegram channel."
        pros :=
          [ "Fastest transition — forces decisive action",
            "Clean break — one platform to manage going forward",
            "Creates urgency that drives higher conversion" ]
        cons :=
          [ "Risky — loses " ++
              localeString ((jsRound (inputs.tgSubscribers * (1 - inputs.overlapPercent / 100)) : ℤ) : ℚ) ++
              " followers not on WhatsApp",
            "Can frustrate loyal Telegram followers",
            "No safety net if WhatsApp doesn't work out" ]
        timelineWeeks := min 4 ninetyWeek } ]
  { recommended := recommended
    cards := cards
    isLargeChannel := isLargeChannel
    showFullSwitchAsViable := showFullSwitchAsViable }

-- ============================================================
-- ComparisonTool.tsx : comparison filter and winner tally
-- ============================================================

/-- Winner union type from ComparisonTool.tsx. -/
inductive Winner
  | whatsapp
  | telegram
  | tie
  | depends
  deriving DecidableEq, Repr

/-- UseCase union type from ComparisonTool.tsx. -/
inductive UseCase
  | creator
  | business
  | personal
  deriving DecidableEq, Repr

/-- Per-product score/summary/detail sub-record of a comparison Feature. -/
structure FeatureSide where
  score : ℚ
  summary : String
  detail : String
  deriving DecidableEq, Repr

/-- Feature record from ComparisonTool.tsx. -/
structure Feature where
  id : ℕ
  feature : String
  category : String
  whatsapp : FeatureSide
  telegram : FeatureSide
  winner : Winner
  creatorRelevant : Bool
  businessRelevant : Bool
  personalRelevant : Bool
  deriving DecidableEq, Repr

/-- RELEVANCE_MAP lookup from ComparisonTool.tsx: the relevance flag for a
use case. -/
def relevanceFlag : UseCase → Feature → Bool
  | .creator, f => f.creatorRelevant
  | .business, f => f.businessRelevant
  | .personal, f => f.personalRelevant

/-- The filteredFeatures useMemo from ComparisonTool.tsx: rows whose
relevance flag for the current use case is true. -/
def filteredFeatures (features : List Feature) (useCase : UseCase) : List Feature :=
  features.filter (fun f => relevanceFlag useCase f)

/-- Winner tally accumulator of ComparisonTool.tsx. -/
structure Tally where
  waWins : ℕ
  tgWins : ℕ
  ties : ℕ
  deriving DecidableEq, Repr

/-- One iteration of the waWins/tgWins/ties forEach in ComparisonTool.tsx:
winner 'whatsapp' and 'telegram' have their own buckets, everything else
falls into the final else bucket. -/
def tallyStep (acc : Tally) (f : Feature) : Tally :=
  if f.winner = Winner.whatsapp then { acc with waWins := acc.waWins + 1 }
  else if f.winner = Winner.telegram then { acc with tgWins := acc.tgWins + 1 }
  else { acc with ties := acc.ties + 1 }

/-- The waWins/tgWins/ties useMemo from ComparisonTool.tsx: fold of
tallyStep over the filtered rows. -/
def winnerTally (features : List Feature) (useCase : UseCase) : Tally :=
  (filteredFeatures features useCase).foldl tallyStep ⟨0, 0, 0⟩

-- ============================================================
-- Shared helper lemmas
-- ============================================================

/-- The General niche, first entry of NICHE_DATA (used as concrete input in
witnesses and counterexamples). -/
def nicheGeneral : NicheData := ⟨"general", "General", 8, 2, 3, 300000⟩

lemma le_jsRound_of_le {k : ℤ} {q : ℚ} (h : (k : ℚ) ≤ q) : k ≤ jsRound q :=
  Int.le_floor.mpr (by linarith)

lemma le_jsRound_of_le_half {k : ℤ} {q : ℚ} (h : (k : ℚ) ≤ q + 1 / 2) :
    k ≤ jsRound q :=
  Int.le_floor.mpr (by linarith)

lemma jsRound_nonneg {q : ℚ} (h : 0 ≤ q) : 0 ≤ jsRound q :=
  le_jsRound_of_le (by exact_mod_cast h)

lemma jsRound_mono {a b : ℚ} (h : a ≤ b) : jsRound a ≤ jsRound b :=
  Int.floor_le_floor (by linarith)

lemma projLoop_head (e p : ℚ) (nn : NicheData) (k month : ℕ) (c eo o : ℚ)
    (hk : k ≠ 0) :
    (projLoop e p nn k month c eo o).getD 0 default =
      ⟨month, scenarioStep e p nn scenarioConservative c,
        scenarioStep e p nn scenarioExpected eo,
        scenarioStep e p nn scenarioOptimistic o⟩ := by
  cases k with
  | zero => exact absurd rfl hk
  | succ n => rfl

-- ============================================================
-- C7 : multiplier capping in calculateEffectiveRate
-- ============================================================

/-- C7: calculateEffectiveRate returns the same value for engagement rates
20 and 50 against a niche with average engagement 8 (both reach the 2.5x
engagement-multiplier cap), and the same value for 10 and 30 posts per week
(both reach the 1.5x frequency-multiplier cap). -/
theorem calculateEffectiveRate_caps (f p e : ℚ) (n1 n2 : NicheData)
    (h : n1.avgEngagement = 8) :
    calculateEffectiveRate f 20 p n1 = calculateEffectiveRate f 50 p n1 ∧
    calculateEffectiveRate f e 10 n2 = calculateEffectiveRate f e 30 n2 := by
  constructor
  · unfold calculateEffectiveRate
    rw [h]
    norm_num [MAX_ENGAGEMENT_MULT, min_def]
  · unfold calculateEffectiveRate
    norm_num [MAX_FREQUENCY_MULT, min_def]

/-- Witness for C7 at concrete inputs. -/
theorem calculateEffectiveRate_caps_witness :
    calculateEffectiveRate 1000 20 3 nicheGeneral = calculateEffectiveRate 1000 50 3 nicheGeneral ∧
    calculateEffectiveRate 1000 8 10 nicheGeneral = calculateEffectiveRate 1000 8 30 nicheGeneral :=
  calculateEffectiveRate_caps 1000 3 8 nicheGeneral nicheGeneral (by norm_num [nicheGeneral])

-- ============================================================
-- C9 : milestones are strictly above the (seeded) current count
-- ============================================================

/-- C9: every milestone returned by calculateMilestones has a target
strictly greater than the seeded current follower count (50 when
followers = 0, otherwise followers). -/
theorem calculateMilestones_above_current (inputs : GrowthInputs)
    (projections : GrowthProjections) (m : Milestone)
    (hm : m ∈ calculateMilestones inputs projections) :
    currentFollowersOf inputs < m.target := by
  unfold calculateMilestones at hm
  rcases List.mem_map.mp hm with ⟨t, ht, rfl⟩
  rcases List.mem_filter.mp ht with ⟨-, hdec⟩
  simpa [milestoneFor] using of_decide_eq_true hdec

/-- Witness for C9: the 10K milestone for a 1000-follower channel. -/
theorem calculateMilestones_above_current_witness :
    currentFollowersOf ⟨1000, 3, 8, nicheGeneral⟩ <
      (milestoneFor ⟨1000, 3, 8, nicheGeneral⟩ ⟨[], ⟨0, 0, 0⟩⟩ 10000).target := by
  apply calculateMilestones_above_current ⟨1000, 3, 8, nicheGeneral⟩ ⟨[], ⟨0, 0, 0⟩⟩
  apply List.mem_map_of_mem
  refine List.mem_filter.mpr ⟨by norm_num [MILESTONE_TARGETS], ?_⟩
  have : currentFollowersOf ⟨1000, 3, 8, nicheGeneral⟩ = 1000 := by
    norm_num [currentFollowersOf]
  rw [this]
  decide

-- ============================================================
-- C8 : strategy recommendation bands
-- ============================================================

/-- C8: getStrategy recommends gradual exactly when overlapPercent is at
least 70 and parallel otherwise (both the 30-69 band and the below-30 band
give parallel); no other strategy type is ever recommended. -/
theorem getStrategy_recommendation (inputs : MigrationInputs) :
    (getStrategy inputs).recommended =
      (if 70 ≤ inputs.overlapPercent then StrategyType.gradual else StrategyType.parallel) ∧
    ((getStrategy inputs).recommended = StrategyType.gradual ∨
      (getStrategy inputs).recommended = StrategyType.parallel) := by
  have h : (getStrategy inputs).recommended =
      (if 70 ≤ inputs.overlapPercent then StrategyType.gradual
       else if 30 ≤ inputs.overlapPercent then StrategyType.parallel
       else StrategyType.parallel) := rfl
  rw [h]
  by_cases h70 : 70 ≤ inputs.overlapPercent
  · simp [h70]
  · by_cases h30 : 30 ≤ inputs.overlapPercent <;> simp [h70, h30]

/-- Witness for C8 at a concrete input in the below-30 band. -/
theorem getStrategy_recommendation_witness :
    (getStrategy ⟨10000, 20, PostFrequency.daily⟩).recommended =
      (if 70 ≤ (20 : ℚ) then StrategyType.gradual else StrategyType.parallel) ∧
    ((getStrategy ⟨10000, 20, PostFrequency.daily⟩).recommended = StrategyType.gradual ∨
      (getStrategy ⟨10000, 20, PostFrequency.daily⟩).recommended = StrategyType.parallel) :=
  getStrategy_recommendation ⟨10000, 20, PostFrequency.daily⟩

-- ============================================================
-- C2 : winner tally and the depends bucket
-- ============================================================

/-- Sample comparison row whose winner is depends and which is relevant to
every use case. -/
def sampleDependsFeature : Feature :=
  ⟨1, "File sharing", "content_tools", ⟨2, "None", "No file sharing in Channels"⟩,
    ⟨5, "2GB", "Files up to 2GB"⟩, Winner.depends, true, true, true⟩

/-- C2 counterexample: a filtered row with winner depends is counted (it
lands in the ties bucket), so the three buckets sum to 1 while the number
of filtered rows whose winner is not depends is 0. -/
theorem winnerTally_depends_counterexample :
    (winnerTally [sampleDependsFeature] UseCase.creator).waWins +
        (winnerTally [sampleDependsFeature] UseCase.creator).tgWins +
        (winnerTally [sampleDependsFeature] UseCase.creator).ties = 1 ∧
    ((filteredFeatures [sampleDependsFeature] UseCase.creator).filter
        (fun f => decide (f.winner ≠ Winner.depends))).length = 0 ∧
    (winnerTally [sampleDependsFeature] UseCase.creator).ties = 1 := by
  refine ⟨?_, ?_, ?_⟩ <;> decide

lemma tally_foldl_total : ∀ (l : List Feature) (a : Tally),
    (l.foldl tallyStep a).waWins + (l.foldl tallyStep a).tgWins +
        (l.foldl tallyStep a).ties =
      a.waWins + a.tgWins + a.ties + l.length
  | [], a => by simp
  | f :: l, a => by
    rw [List.foldl_cons, tally_foldl_total l (tallyStep a f), List.length_cons]
    unfold tallyStep
    split
    · simp; omega
    · split <;> simp <;> omega

/-- C2 amended: the tally's else branch counts every filtered row that is
neither a whatsapp nor a telegram win — ties and depends alike — so
waWins + tgWins + ties equals the total number of filtered rows. -/
theorem winnerTally_total (features : List Feature) (useCase : UseCase) :
    (winnerTally features useCase).waWins + (winnerTally features useCase).tgWins +
        (winnerTally features useCase).ties =
      (filteredFeatures features useCase).length := by
  unfold winnerTally
  simpa using tally_foldl_total (filteredFeatures features useCase) ⟨0, 0, 0⟩

-- ============================================================
-- C1 : benchmark mid band [0.5, 0.8)
-- ============================================================

/-- C1 counterexample: with engagement 4 and 5 posts per week in the
General niche the combined score is 0.7, inside [0.5, 0.8), and
calculateBenchmark yields percentile 30 with label Below Average — not the
label Average the claim states. -/
theorem calculateBenchmark_midband_counterexample :
    (1 / 2 : ℚ) ≤ combinedScoreOf ⟨1000, 5, 4, nicheGeneral⟩ ∧
    combinedScoreOf ⟨1000, 5, 4, nicheGeneral⟩ < 4 / 5 ∧
    (calculateBenchmark ⟨1000, 5, 4, nicheGeneral⟩).percentile = 30 ∧
    (calculateBenchmark ⟨1000, 5, 4, nicheGeneral⟩).label ≠ BenchmarkLabel.average := by
  refine ⟨?_, ?_, ?_, ?_⟩ <;>
    norm_num [combinedScoreOf, calculateBenchmark, percentileFor, labelFor,
      nicheGeneral, AVG_POSTS_PER_WEEK]
  decide

/-- C1 amended: a combined score at least 0.5 and below 0.8 yields
percentile 30, whose label is Below Average (the label ladder's Average
floor is percentile 40, which 30 does not reach). -/
lemma percentileFor_midband {s : ℚ} (h1 : 1 / 2 ≤ s) (h2 : s < 4 / 5) :
    percentileFor s = 30 := by
  unfold percentileFor
  split_ifs <;> first | rfl | (exfalso; norm_num at *; linarith)

theorem calculateBenchmark_midband (inputs : GrowthInputs)
    (h1 : 1 / 2 ≤ combinedScoreOf inputs) (h2 : combinedScoreOf inputs < 4 / 5) :
    (calculateBenchmark inputs).percentile = 30 ∧
    (calculateBenchmark inputs).label = BenchmarkLabel.belowAverage := by
  have hp : (calculateBenchmark inputs).percentile =
      percentileFor (combinedScoreOf inputs) := rfl
  have hl : (calculateBenchmark inputs).label =
      labelFor (percentileFor (combinedScoreOf inputs)) := rfl
  rw [hp, hl, percentileFor_midband h1 h2]
  exact ⟨rfl, by norm_num [labelFor]⟩

/-- Witness for the amended C1 at the concrete counterexample input. -/
theorem calculateBenchmark_midband_witness :
    (calculateBenchmark ⟨1000, 5, 4, nicheGeneral⟩).percentile = 30 ∧
    (calculateBenchmark ⟨1000, 5, 4, nicheGeneral⟩).label = BenchmarkLabel.belowAverage :=
  calculateBenchmark_midband ⟨1000, 5, 4, nicheGeneral⟩
    (by norm_num [combinedScoreOf, nicheGeneral, AVG_POSTS_PER_WEEK])
    (by norm_num [combinedScoreOf, nicheGeneral, AVG_POSTS_PER_WEEK])

-- ============================================================
-- C10 : generateTips bound and final generic tip
-- ============================================================

lemma engagement_group_length (inputs : GrowthInputs)
    (ha : 0 ≤ inputs.niche.avgEngagement) :
    (engagementTips inputs).length + (highEngagementTips inputs).length ≤ 1 := by
  unfold engagementTips highEngagementTips
  split_ifs <;> simp_all <;> linarith

lemma frequency_group_length (inputs : GrowthInputs) :
    (lowFrequencyTips inputs).length + (highFrequencyTips inputs).length ≤ 1 := by
  unfold lowFrequencyTips highFrequencyTips
  split_ifs <;> simp_all
  linarith

lemma small_channel_length (inputs : GrowthInputs) :
    (smallChannelTips inputs).length ≤ 1 := by
  unfold smallChannelTips
  split_ifs <;> simp

/-- C10: generateTips returns at most four tips and its last element is
always the fixed low-priority generic tip (the engagement conditions are
mutually exclusive and so are the frequency conditions, so at most three
conditional tips fire and the generic tip survives the slice to four). -/
theorem generateTips_bounded (inputs : GrowthInputs)
    (ha : 0 ≤ inputs.niche.avgEngagement) :
    (generateTips inputs).length ≤ 4 ∧
    (generateTips inputs).getLast? = some genericTip := by
  have h1 := engagement_group_length inputs ha
  have h2 := frequency_group_length inputs
  have h3 := small_channel_length inputs
  have hlen : (engagementTips inputs ++ lowFrequencyTips inputs ++
      highFrequencyTips inputs ++ smallChannelTips inputs ++
      highEngagementTips inputs).length ≤ 3 := by
    simp only [List.length_append]
    omega
  constructor
  · unfold generateTips
    simp [List.length_take]
  · unfold generateTips
    rw [List.take_of_length_le]
    · exact List.getLast?_concat _
    · simp only [List.length_append]
      simp only [List.length_append] at hlen
      simp
      omega

/-- Witness for C10 at a concrete input. -/
theorem generateTips_bounded_witness :
    (generateTips ⟨1000, 3, 8, nicheGeneral⟩).length ≤ 4 ∧
    (generateTips ⟨1000, 3, 8, nicheGeneral⟩).getLast? = some genericTip :=
  generateTips_bounded ⟨1000, 3, 8, nicheGeneral⟩ (by norm_num [nicheGeneral])

-- ============================================================
-- C3 : seeding at 50 and first-month growth
-- ============================================================

/-- C3 counterexample: with followers 0, engagement rate 0.1 and no posts in
the General niche the effective monthly rate at the seed is positive, yet
the first month's expected count rounds back to exactly 50, not above it. -/
theorem calculateProjections_seed_counterexample :
    0 < calculateEffectiveRate 50 (1 / 10) 0 nicheGeneral * scenarioExpected ∧
    ((calculateProjections ⟨0, 0, 1 / 10, nicheGeneral⟩).monthly.getD 0 default).expected = 50 := by
  constructor
  · norm_num [calculateEffectiveRate, nicheGeneral, BASE_GROWTH_RATE,
      MAX_ENGAGEMENT_MULT, MAX_FREQUENCY_MULT, scenarioExpected, min_def]
  · have hm : (calculateProjections ⟨0, 0, 1 / 10, nicheGeneral⟩).monthly =
        projLoop (1 / 10) 0 nicheGeneral 12 1 50 50 50 := by
      simp [calculateProjections]
    rw [hm, projLoop_head _ _ _ 12 1 _ _ _ (by norm_num)]
    norm_num [scenarioStep, calculateEffectiveRate, jsRound, nicheGeneral,
      BASE_GROWTH_RATE, MAX_ENGAGEMENT_MULT, MAX_FREQUENCY_MULT, scenarioExpected,
      min_def, Int.floor_eq_iff]

/-- C3 amended: with followers = 0 every scenario starts from the seed 50
(the projections equal those of the same inputs with followers = 50), and
the first month's expected count exceeds 50 whenever the expected
scenario's effective monthly rate at the seed is at least 1% — with a
merely positive rate the rounded count can stay at 50. -/
theorem calculateProjections_seeded (inputs : GrowthInputs)
    (h0 : inputs.followers = 0)
    (hr : 1 / 100 ≤ calculateEffectiveRate 50 inputs.engagementRate
      inputs.postsPerWeek inputs.niche * scenarioExpected) :
    calculateProjections inputs =
      calculateProjections
        { followers := 50, postsPerWeek := inputs.postsPerWeek,
          engagementRate := inputs.engagementRate, niche := inputs.niche } ∧
    50 < ((calculateProjections inputs).monthly.getD 0 default).expected := by
  constructor
  · simp [calculateProjections, h0]
  · have hm : (calculateProjections inputs).monthly =
        projLoop inputs.engagementRate inputs.postsPerWeek inputs.niche 12 1 50 50 50 := by
      simp [calculateProjections, h0]
    rw [hm, projLoop_head _ _ _ 12 1 _ _ _ (by norm_num)]
    show (50 : ℚ) < scenarioStep inputs.engagementRate inputs.postsPerWeek inputs.niche
      scenarioExpected 50
    unfold scenarioStep
    have h51 : (51 : ℤ) ≤ jsRound (50 * (1 + calculateEffectiveRate 50
        inputs.engagementRate inputs.postsPerWeek inputs.niche * scenarioExpected)) := by
      apply le_jsRound_of_le_half
      push_cast
      linarith
    calc (50 : ℚ) < 51 := by norm_num
      _ ≤ _ := by exact_mod_cast h51

/-- Witness for the amended C3: a zero-follower General-niche channel with
8% engagement and 3 posts per week has an effective seed rate of about 4%,
so the first expected month strictly exceeds 50. -/
theorem calculateProjections_seeded_witness :
    calculateProjections ⟨0, 3, 8, nicheGeneral⟩ =
      calculateProjections
        { followers := 50, postsPerWeek := (3 : ℚ),
          engagementRate := (8 : ℚ), niche := nicheGeneral } ∧
    50 < ((calculateProjections ⟨0, 3, 8, nicheGeneral⟩).monthly.getD 0 default).expected :=
  calculateProjections_seeded ⟨0, 3, 8, nicheGeneral⟩ rfl
    (by norm_num [calculateEffectiveRate, nicheGeneral, BASE_GROWTH_RATE,
      MAX_ENGAGEMENT_MULT, MAX_FREQUENCY_MULT, scenarioExpected, min_def])

-- ============================================================
-- C4 : growth projections are ordered and non-decreasing
-- ============================================================

/-- Pointwise scenario ordering between consecutive month projections. -/
def monthLE (p q : MonthProjection) : Prop :=
  p.conservative ≤ q.conservative ∧ p.expected ≤ q.expected ∧
    p.optimistic ≤ q.optimistic

lemma calculateEffectiveRate_eq (x e p : ℚ) (n : NicheData) :
    calculateEffectiveRate x e p n =
      BASE_GROWTH_RATE * min (e / n.avgEngagement) MAX_ENGAGEMENT_MULT *
        min (0.5 + p / 10) MAX_FREQUENCY_MULT * (n.capacity / (n.capacity + x)) := rfl

lemma growthCoeff_nonneg {e p : ℚ} {n : NicheData} (he : 0 ≤ e) (hp : 0 ≤ p)
    (ha : 0 < n.avgEngagement) :
    0 ≤ BASE_GROWTH_RATE * min (e / n.avgEngagement) MAX_ENGAGEMENT_MULT *
      min (0.5 + p / 10) MAX_FREQUENCY_MULT := by
  have h1 : 0 ≤ min (e / n.avgEngagement) MAX_ENGAGEMENT_MULT :=
    le_min (div_nonneg he ha.le) (by norm_num [MAX_ENGAGEMENT_MULT])
  have h2 : 0 ≤ min (0.5 + p / 10) MAX_FREQUENCY_MULT := by
    have : (0 : ℚ) ≤ p / 10 := by positivity
    exact le_min (by linarith) (by norm_num [MAX_FREQUENCY_MULT])
  have h0 : (0 : ℚ) ≤ BASE_GROWTH_RATE := by norm_num [BASE_GROWTH_RATE]
  exact mul_nonneg (mul_nonneg h0 h1) h2

lemma calculateEffectiveRate_nonneg {x e p : ℚ} {n : NicheData} (hx : 0 ≤ x)
    (he : 0 ≤ e) (hp : 0 ≤ p) (ha : 0 < n.avgEngagement)
    (hcap : 0 < n.capacity) :
    0 ≤ calculateEffectiveRate x e p n := by
  rw [calculateEffectiveRate_eq]
  exact mul_nonneg (growthCoeff_nonneg he hp ha)
    (div_nonneg hcap.le (by linarith))

lemma damp_mul_mono {cap x y : ℚ} (hcap : 0 < cap) (hx : 0 ≤ x) (hxy : x ≤ y) :
    x * (cap / (cap + x)) ≤ y * (cap / (cap + y)) := by
  have hx' : 0 < cap + x := by linarith
  have hy' : 0 < cap + y := by linarith
  rw [mul_div_assoc', mul_div_assoc', div_le_div_iff₀ hx' hy']
  nlinarith [mul_nonneg (mul_nonneg (sub_nonneg.mpr hxy) hcap.le) hcap.le]

lemma stepArg_mono {K s cap x y : ℚ} (hK : 0 ≤ K) (hs : 0 ≤ s)
    (hcap : 0 < cap) (hx : 0 ≤ x) (hxy : x ≤ y) :
    x * (1 + K * (cap / (cap + x)) * s) ≤ y * (1 + K * (cap / (cap + y)) * s) := by
  have key := damp_mul_mono hcap hx hxy
  have hscaled := mul_le_mul_of_nonneg_left key (mul_nonneg hK hs)
  nlinarith [hscaled, hxy]

lemma scenarioStep_mono {e p : ℚ} {n : NicheData} (he : 0 ≤ e) (hp : 0 ≤ p)
    (ha : 0 < n.avgEngagement) (hcap : 0 < n.capacity) {s : ℚ} (hs : 0 ≤ s)
    {x y : ℚ} (hx : 0 ≤ x) (hxy : x ≤ y) :
    scenarioStep e p n s x ≤ scenarioStep e p n s y := by
  unfold scenarioStep
  have harg : x * (1 + calculateEffectiveRate x e p n * s) ≤
      y * (1 + calculateEffectiveRate y e p n * s) := by
    rw [calculateEffectiveRate_eq x e p n, calculateEffectiveRate_eq y e p n]
    exact stepArg_mono (growthCoeff_nonneg he hp ha) hs hcap hx hxy
  exact_mod_cast jsRound_mono harg

lemma scenarioStep_scenario_le {e p : ℚ} {n : NicheData} (he : 0 ≤ e)
    (hp : 0 ≤ p) (ha : 0 < n.avgEngagement) (hcap : 0 < n.capacity)
    {s₁ s₂ : ℚ} (h12 : s₁ ≤ s₂) {x : ℚ} (hx : 0 ≤ x) :
    scenarioStep e p n s₁ x ≤ scenarioStep e p n s₂ x := by
  unfold scenarioStep
  have hR := calculateEffectiveRate_nonneg hx he hp ha hcap (x := x)
  have h1 : calculateEffectiveRate x e p n * s₁ ≤ calculateEffectiveRate x e p n * s₂ :=
    mul_le_mul_of_nonneg_left h12 hR
  have harg : x * (1 + calculateEffectiveRate x e p n * s₁) ≤
      x * (1 + calculateEffectiveRate x e p n * s₂) :=
    mul_le_mul_of_nonneg_left (by linarith) hx
  exact_mod_cast jsRound_mono harg

lemma scenarioStep_nonneg {e p : ℚ} {n : NicheData} (he : 0 ≤ e) (hp : 0 ≤ p)
    (ha : 0 < n.avgEngagement) (hcap : 0 < n.capacity) {s : ℚ} (hs : 0 ≤ s)
    {x : ℚ} (hx : 0 ≤ x) :
    0 ≤ scenarioStep e p n s x := by
  unfold scenarioStep
  have hR := calculateEffectiveRate_nonneg hx he hp ha hcap (x := x)
  have harg : (0 : ℚ) ≤ x * (1 + calculateEffectiveRate x e p n * s) := by
    have : 0 ≤ calculateEffectiveRate x e p n * s := mul_nonneg hR hs
    nlinarith
  exact_mod_cast jsRound_nonneg harg

lemma scenarioStep_progress {e p : ℚ} {n : NicheData} (he : 0 ≤ e) (hp : 0 ≤ p)
    (ha : 0 < n.avgEngagement) (hcap : 0 < n.capacity) {s : ℚ} (hs : 0 ≤ s)
    {x : ℚ} (hint : ∃ k : ℤ, x = (k : ℚ)) (hx : 0 ≤ x) :
    x ≤ scenarioStep e p n s x := by
  obtain ⟨k, rfl⟩ := hint
  unfold scenarioStep
  have hR := calculateEffectiveRate_nonneg hx he hp ha hcap (x := (k : ℚ))
  have harg : (k : ℚ) ≤ (k : ℚ) * (1 + calculateEffectiveRate (k : ℚ) e p n * s) := by
    nlinarith [mul_nonneg (mul_nonneg hx hR) hs]
  exact_mod_cast le_jsRound_of_le harg

/-- Integer-valuedness of a scenarioStep result. -/
lemma scenarioStep_isInt (e p : ℚ) (n : NicheData) (s x : ℚ) :
    ∃ k : ℤ, scenarioStep e p n s x = (k : ℚ) :=
  ⟨jsRound (x * (1 + calculateEffectiveRate x e p n * s)), rfl⟩

lemma scenario_mult_nonneg :
    (0 : ℚ) ≤ scenarioConservative ∧ (0 : ℚ) ≤ scenarioExpected ∧
      (0 : ℚ) ≤ scenarioOptimistic := by
  norm_num [scenarioConservative, scenarioExpected, scenarioOptimistic]

lemma projLoop_pointwise {e p : ℚ} {n : NicheData} (he : 0 ≤ e) (hp : 0 ≤ p)
    (ha : 0 < n.avgEngagement) (hcap : 0 < n.capacity) :
    ∀ (k month : ℕ) (c eo o : ℚ), 0 ≤ c → c ≤ eo → eo ≤ o →
      ∀ q ∈ projLoop e p n k month c eo o,
        q.conservative ≤ q.expected ∧ q.expected ≤ q.optimistic := by
  intro k
  induction k with
  | zero => intro month c eo o _ _ _ q hq; simp [projLoop] at hq
  | succ k ih =>
    intro month c eo o hc hce heo q hq
    have h0e : 0 ≤ eo := le_trans hc hce
    have h0o : 0 ≤ o := le_trans h0e heo
    have hsc : (0 : ℚ) ≤ scenarioConservative := scenario_mult_nonneg.1
    have hse : (0 : ℚ) ≤ scenarioExpected := scenario_mult_nonneg.2.1
    have hso : (0 : ℚ) ≤ scenarioOptimistic := scenario_mult_nonneg.2.2
    have hce' : scenarioStep e p n scenarioConservative c ≤
        scenarioStep e p n scenarioExpected eo :=
      le_trans (scenarioStep_mono he hp ha hcap hsc hc hce)
        (scenarioStep_scenario_le he hp ha hcap
          (by norm_num [scenarioConservative, scenarioExpected]) h0e)
    have heo' : scenarioStep e p n scenarioExpected eo ≤
        scenarioStep e p n scenarioOptimistic o :=
      le_trans (scenarioStep_mono he hp ha hcap hse h0e heo)
        (scenarioStep_scenario_le he hp ha hcap
          (by norm_num [scenarioExpected, scenarioOptimistic]) h0o)
    rw [projLoop] at hq
    rcases List.mem_cons.mp hq with rfl | htail
    · exact ⟨hce', heo'⟩
    · exact ih (month + 1) _ _ _
        (scenarioStep_nonneg he hp ha hcap hsc hc) hce' heo' q htail

lemma projLoop_head? (e p : ℚ) (n : NicheData) (k month : ℕ) (c eo o : ℚ)
    (hk : k ≠ 0) :
    (projLoop e p n k month c eo o).head? =
      some ⟨month, scenarioStep e p n scenarioConservative c,
        scenarioStep e p n scenarioExpected eo,
        scenarioStep e p n scenarioOptimistic o⟩ := by
  cases k with
  | zero => exact absurd rfl hk
  | succ k => rfl

lemma projLoop_chain' {e p : ℚ} {n : NicheData} (he : 0 ≤ e) (hp : 0 ≤ p)
    (ha : 0 < n.avgEngagement) (hcap : 0 < n.capacity) :
    ∀ (k month : ℕ) (c eo o : ℚ), 0 ≤ c → c ≤ eo → eo ≤ o →
      List.Chain' monthLE (projLoop e p n k month c eo o) := by
  intro k
  induction k with
  | zero => intro month c eo o _ _ _; simp [projLoop]
  | succ k ih =>
    intro month c eo o hc hce heo
    have h0e : 0 ≤ eo := le_trans hc hce
    have h0o : 0 ≤ o := le_trans h0e heo
    have hsc : (0 : ℚ) ≤ scenarioConservative := scenario_mult_nonneg.1
    have hse : (0 : ℚ) ≤ scenarioExpected := scenario_mult_nonneg.2.1
    have hso : (0 : ℚ) ≤ scenarioOptimistic := scenario_mult_nonneg.2.2
    have hc' : 0 ≤ scenarioStep e p n scenarioConservative c :=
      scenarioStep_nonneg he hp ha hcap hsc hc
    have hce' : scenarioStep e p n scenarioConservative c ≤
        scenarioStep e p n scenarioExpected eo :=
      le_trans (scenarioStep_mono he hp ha hcap hsc hc hce)
        (scenarioStep_scenario_le he hp ha hcap
          (by norm_num [scenarioConservative, scenarioExpected]) h0e)
    have heo' : scenarioStep e p n scenarioExpected eo ≤
        scenarioStep e p n scenarioOptimistic o :=
      le_trans (scenarioStep_mono he hp ha hcap hse h0e heo)
        (scenarioStep_scenario_le he hp ha hcap
          (by norm_num [scenarioExpected, scenarioOptimistic]) h0o)
    rw [projLoop]
    rw [List.chain'_cons']
    constructor
    · intro b hb
      cases k with
      | zero => simp [projLoop] at hb
      | succ k2 =>
        rw [projLoop_head? e p n (k2 + 1) (month + 1) _ _ _ (Nat.succ_ne_zero k2)] at hb
        rcases Option.mem_some_iff.mp hb with rfl
        refine ⟨?_, ?_, ?_⟩
        · exact scenarioStep_progress he hp ha hcap hsc
            (scenarioStep_isInt e p n scenarioConservative c) hc'
        · exact scenarioStep_progress he hp ha hcap hse
            (scenarioStep_isInt e p n scenarioExpected eo)
            (le_trans hc' hce')
        · exact scenarioStep_progress he hp ha hcap hso
            (scenarioStep_isInt e p n scenarioOptimistic o)
            (le_trans (le_trans hc' hce') heo')
    · exact ih (month + 1) _ _ _ hc' hce' heo'

/-- C4: for non-negative followers, posts per week and engagement rate and a
niche with positive average engagement and capacity, every month of
calculateProjections satisfies conservative <= expected <= optimistic, and
each scenario's month-over-month counts are non-decreasing. -/
theorem calculateProjections_monotone (inputs : GrowthInputs)
    (hf : 0 ≤ inputs.followers) (hp : 0 ≤ inputs.postsPerWeek)
    (he : 0 ≤ inputs.engagementRate) (ha : 0 < inputs.niche.avgEngagement)
    (hcap : 0 < inputs.niche.capacity) :
    (∀ q ∈ (calculateProjections inputs).monthly,
        q.conservative ≤ q.expected ∧ q.expected ≤ q.optimistic) ∧
    List.Chain' monthLE (calculateProjections inputs).monthly := by
  have hm : (calculateProjections inputs).monthly =
      projLoop inputs.engagementRate inputs.postsPerWeek inputs.niche 12 1
        (if inputs.followers = 0 then (50 : ℚ) else inputs.followers)
        (if inputs.followers = 0 then (50 : ℚ) else inputs.followers)
        (if inputs.followers = 0 then (50 : ℚ) else inputs.followers) := rfl
  have hseed : 0 ≤ (if inputs.followers = 0 then (50 : ℚ) else inputs.followers) := by
    split
    · norm_num
    · exact hf
  rw [hm]
  exact ⟨projLoop_pointwise he hp ha hcap 12 1 _ _ _ hseed le_rfl le_rfl,
    projLoop_chain' he hp ha hcap 12 1 _ _ _ hseed le_rfl le_rfl⟩

/-- Witness for C4 at a concrete input. -/
theorem calculateProjections_monotone_witness :
    (∀ q ∈ (calculateProjections ⟨1000, 3, 8, nicheGeneral⟩).monthly,
        q.conservative ≤ q.expected ∧ q.expected ≤ q.optimistic) ∧
    List.Chain' monthLE (calculateProjections ⟨1000, 3, 8, nicheGeneral⟩).monthly :=
  calculateProjections_monotone ⟨1000, 3, 8, nicheGeneral⟩ (by norm_num)
    (by norm_num) (by norm_num) (by norm_num [nicheGeneral])
    (by norm_num [nicheGeneral])

-- ============================================================
-- C5 : migration timeline capped at reachable and non-decreasing
-- ============================================================

/-- Pointwise scenario ordering between consecutive timeline weeks. -/
def weekLE (p q : TimelineWeek) : Prop :=
  p.conservative ≤ q.conservative ∧ p.expected ≤ q.expected ∧
    p.optimistic ≤ q.optimistic

lemma baseRateFor_nonneg (w : ℕ) : 0 ≤ baseRateFor w := by
  have hall : ∀ i : ℕ, 0 ≤ BASE_CONVERSION_RATES.getD i 0 := by
    intro i
    rcases i with _ | _ | _ | _ | _ | _ | _ | _ | _ | i <;>
      norm_num [BASE_CONVERSION_RATES, List.getD_cons_zero, List.getD_cons_succ, List.getD]
  unfold baseRateFor
  split <;> exact hall _

lemma freqMult_nonneg (pf : PostFrequency) : 0 ≤ FREQUENCY_MULTIPLIERS pf := by
  cases pf <;> norm_num [FREQUENCY_MULTIPLIERS]

lemma timelineStep_le_reachable (r f b s c : ℚ) : timelineStep r f b s c ≤ r :=
  min_le_right _ _

lemma le_timelineStep {r f b s c : ℚ} (hr : 0 ≤ r) (hf : 0 ≤ f) (hb : 0 ≤ b)
    (hs : 0 ≤ s) (hcr : c ≤ r) : c ≤ timelineStep r f b s c := by
  unfold timelineStep
  have hnew : (0 : ℚ) ≤ ((jsRound (r * (b * f * s)) : ℤ) : ℚ) := by
    have : (0 : ℚ) ≤ r * (b * f * s) := by positivity
    exact_mod_cast jsRound_nonneg this
  exact le_min (by linarith) hcr

lemma timelineLoop_le_reachable (r f : ℚ) :
    ∀ (k w : ℕ) (c e o : ℚ), ∀ q ∈ timelineLoop r f k w c e o,
      q.conservative ≤ r ∧ q.expected ≤ r ∧ q.optimistic ≤ r := by
  intro k
  induction k with
  | zero => intro w c e o q hq; simp [timelineLoop] at hq
  | succ k ih =>
    intro w c e o q hq
    rw [timelineLoop] at hq
    rcases List.mem_cons.mp hq with rfl | htail
    · exact ⟨timelineStep_le_reachable r f _ _ c,
        timelineStep_le_reachable r f _ _ e, timelineStep_le_reachable r f _ _ o⟩
    · split at htail
      · simp at htail
      · exact ih (w + 1) _ _ _ q htail

lemma timelineLoop_head? (r f : ℚ) (k w : ℕ) (c e o : ℚ) (hk : k ≠ 0) :
    (timelineLoop r f k w c e o).head? =
      some ⟨w, timelineStep r f (baseRateFor w) migConservative c,
        timelineStep r f (baseRateFor w) migExpected e,
        timelineStep r f (baseRateFor w) migOptimistic o⟩ := by
  cases k with
  | zero => exact absurd rfl hk
  | succ k => rw [timelineLoop]; split <;> rfl

lemma mig_mult_nonneg :
    (0 : ℚ) ≤ migConservative ∧ (0 : ℚ) ≤ migExpected ∧ (0 : ℚ) ≤ migOptimistic := by
  norm_num [migConservative, migExpected, migOptimistic]

lemma timelineLoop_chain' {r f : ℚ} (hr : 0 ≤ r) (hf : 0 ≤ f) :
    ∀ (k w : ℕ) (c e o : ℚ), c ≤ r → e ≤ r → o ≤ r →
      List.Chain' weekLE (timelineLoop r f k w c e o) := by
  intro k
  induction k with
  | zero => intro w c e o _ _ _; simp [timelineLoop]
  | succ k ih =>
    intro w c e o hc he ho
    have hb := baseRateFor_nonneg w
    have hc' := timelineStep_le_reachable r f (baseRateFor w) migConservative c
    have he' := timelineStep_le_reachable r f (baseRateFor w) migExpected e
    have ho' := timelineStep_le_reachable r f (baseRateFor w) migOptimistic o
    rw [timelineLoop]
    rw [List.chain'_cons']
    constructor
    · intro b hb2
      split at hb2
      · simp at hb2
      · cases k with
        | zero => simp [timelineLoop] at hb2
        | succ k2 =>
          rw [timelineLoop_head? r f (k2 + 1) (w + 1) _ _ _ (Nat.succ_ne_zero k2)] at hb2
          rcases Option.mem_some_iff.mp hb2 with rfl
          exact ⟨le_timelineStep hr hf (baseRateFor_nonneg (w + 1)) mig_mult_nonneg.1 hc',
            le_timelineStep hr hf (baseRateFor_nonneg (w + 1)) mig_mult_nonneg.2.1 he',
            le_timelineStep hr hf (baseRateFor_nonneg (w + 1)) mig_mult_nonneg.2.2 ho'⟩
    · split
      · simp
      · exact ih (w + 1) _ _ _ hc' he' ho'

lemma calculateReachable_nonneg {t o : ℚ} (ht : 0 ≤ t) (ho : 0 ≤ o) :
    0 ≤ calculateReachable t o := by
  unfold calculateReachable
  have : (0 : ℚ) ≤ t * (o / 100) := by positivity
  exact_mod_cast jsRound_nonneg this

/-- C5: for tgSubscribers >= 0 and overlapPercent in [10, 100], every week of
calculateTimeline keeps each scenario's cumulative count at or below the
reachable audience, and each scenario's cumulative sequence is
non-decreasing week over week. -/
theorem calculateTimeline_capped (inputs : MigrationInputs)
    (ht : 0 ≤ inputs.tgSubscribers) (h10 : 10 ≤ inputs.overlapPercent)
    (h100 : inputs.overlapPercent ≤ 100) :
    (∀ q ∈ (calculateTimeline inputs).weeks,
        q.conservative ≤ calculateReachable inputs.tgSubscribers inputs.overlapPercent ∧
        q.expected ≤ calculateReachable inputs.tgSubscribers inputs.overlapPercent ∧
        q.optimistic ≤ calculateReachable inputs.tgSubscribers inputs.overlapPercent) ∧
    List.Chain' weekLE (calculateTimeline inputs).weeks := by
  have hw : (calculateTimeline inputs).weeks =
      timelineLoop (calculateReachable inputs.tgSubscribers inputs.overlapPercent)
        (FREQUENCY_MULTIPLIERS inputs.postFrequency) 24 1 0 0 0 := rfl
  have hr : 0 ≤ calculateReachable inputs.tgSubscribers inputs.overlapPercent :=
    calculateReachable_nonneg ht (by linarith)
  rw [hw]
  exact ⟨timelineLoop_le_reachable _ _ 24 1 0 0 0,
    timelineLoop_chain' hr (freqMult_nonneg inputs.postFrequency) 24 1 0 0 0 hr hr hr⟩

/-- Witness for C5 at a concrete input. -/
theorem calculateTimeline_capped_witness :
    (∀ q ∈ (calculateTimeline ⟨10000, 85, PostFrequency.daily⟩).weeks,
        q.conservative ≤ calculateReachable 10000 85 ∧
        q.expected ≤ calculateReachable 10000 85 ∧
        q.optimistic ≤ calculateReachable 10000 85) ∧
    List.Chain' weekLE (calculateTimeline ⟨10000, 85, PostFrequency.daily⟩).weeks :=
  calculateTimeline_capped ⟨10000, 85, PostFrequency.daily⟩ (by norm_num)
    (by norm_num) (by norm_num)

-- ============================================================
-- C6 : at most 24 weeks, early stop exactly at the 95% threshold
-- ============================================================

lemma timelineLoop_length (r f : ℚ) :
    ∀ (k w : ℕ) (c e o : ℚ), (timelineLoop r f k w c e o).length ≤ k := by
  intro k
  induction k with
  | zero => intro w c e o; simp [timelineLoop]
  | succ k ih =>
    intro w c e o
    rw [timelineLoop]
    simp only [List.length_cons]
    split
    · simp
    · exact Nat.succ_le_succ (ih (w + 1) _ _ _)

lemma timelineLoop_below_threshold (r f : ℚ) :
    ∀ (k w : ℕ) (c e o : ℚ) (i : ℕ),
      i + 1 < (timelineLoop r f k w c e o).length →
      ((timelineLoop r f k w c e o).getD i default).conservative < r * 0.95 := by
  intro k
  induction k with
  | zero => intro w c e o i hi; simp [timelineLoop] at hi
  | succ k ih =>
    intro w c e o i hi
    rw [timelineLoop] at hi ⊢
    by_cases hbr : r * 0.95 ≤ timelineStep r f (baseRateFor w) migConservative c
    · rw [if_pos hbr] at hi
      simp at hi
    · rw [if_neg hbr] at hi ⊢
      cases i with
      | zero => simpa [List.getD_cons_zero] using not_le.mp hbr
      | succ i =>
        rw [List.getD_cons_succ]
        apply ih (w + 1)
        simpa using hi

lemma timelineLoop_last_threshold (r f : ℚ) :
    ∀ (k w : ℕ) (c e o : ℚ), (timelineLoop r f k w c e o).length < k →
      ∀ q ∈ (timelineLoop r f k w c e o).getLast?,
        r * 0.95 ≤ q.conservative := by
  intro k
  induction k with
  | zero => intro w c e o hlen; omega
  | succ k ih =>
    intro w c e o hlen q hq
    rw [timelineLoop] at hlen hq
    by_cases hbr : r * 0.95 ≤ timelineStep r f (baseRateFor w) migConservative c
    · rw [if_pos hbr] at hq
      rcases Option.mem_some_iff.mp (by simpa [List.getLast?] using hq) with rfl
      exact hbr
    · rw [if_neg hbr] at hlen hq
      cases hk : k with
      | zero =>
        subst hk
        simp [timelineLoop] at hlen
      | succ k2 =>
        subst hk
        rcases hl : timelineLoop r f (k2 + 1) (w + 1)
            (timelineStep r f (baseRateFor w) migConservative c)
            (timelineStep r f (baseRateFor w) migExpected e)
            (timelineStep r f (baseRateFor w) migOptimistic o) with - | ⟨b, t⟩
        · rw [timelineLoop] at hl
          exact absurd hl (List.cons_ne_nil _ _)
        · rw [hl, List.getLast?_cons_cons] at hq
          have hq2 : q ∈ (timelineLoop r f (k2 + 1) (w + 1)
              (timelineStep r f (baseRateFor w) migConservative c)
              (timelineStep r f (baseRateFor w) migExpected e)
              (timelineStep r f (baseRateFor w) migOptimistic o)).getLast? := by
            rw [hl]
            exact hq
          apply ih (w + 1) _ _ _ _ q hq2
          simp only [List.length_cons] at hlen
          omega

/-- C6: calculateTimeline contains at most 24 weeks; in every week but the
last the conservative cumulative is strictly below 95% of reachable, and
whenever the timeline ends before week 24 its last week's conservative
cumulative has reached at least 95% of reachable. -/
theorem calculateTimeline_stops (inputs : MigrationInputs) :
    (calculateTimeline inputs).weeks.length ≤ 24 ∧
    (∀ i, i + 1 < (calculateTimeline inputs).weeks.length →
      ((calculateTimeline inputs).weeks.getD i default).conservative <
        calculateReachable inputs.tgSubscribers inputs.overlapPercent * 0.95) ∧
    ((calculateTimeline inputs).weeks.length < 24 →
      ∀ q ∈ (calculateTimeline inputs).weeks.getLast?,
        calculateReachable inputs.tgSubscribers inputs.overlapPercent * 0.95 ≤
          q.conservative) := by
  have hw : (calculateTimeline inputs).weeks =
      timelineLoop (calculateReachable inputs.tgSubscribers inputs.overlapPercent)
        (FREQUENCY_MULTIPLIERS inputs.postFrequency) 24 1 0 0 0 := rfl
  rw [hw]
  exact ⟨timelineLoop_length _ _ 24 1 0 0 0,
    fun i hi => timelineLoop_below_threshold _ _ 24 1 0 0 0 i hi,
    fun hlen => timelineLoop_last_threshold _ _ 24 1 0 0 0 hlen⟩

/-- Witness for C6 at a concrete input. -/
theorem calculateTimeline_stops_witness :
    (calculateTimeline ⟨5000, 50, PostFrequency.weekly⟩).weeks.length ≤ 24 ∧
    (∀ i, i + 1 < (calculateTimeline ⟨5000, 50, PostFrequency.weekly⟩).weeks.length →
      ((calculateTimeline ⟨5000, 50, PostFrequency.weekly⟩).weeks.getD i default).conservative <
        calculateReachable 5000 50 * 0.95) ∧
    ((calculateTimeline ⟨5000, 50, PostFrequency.weekly⟩).weeks.length < 24 →
      ∀ q ∈ (calculateTimeline ⟨5000, 50, PostFrequency.weekly⟩).weeks.getLast?,
        calculateReachable 5000 50 * 0.95 ≤ q.conservative) :=
  calculateTimeline_stops ⟨5000, 50, PostFrequency.weekly⟩
